import Mathlib

/-!
Verification development for the presidential-chauffeurs-node inquiry pipeline.

The repository is a Node/Express backend with several near-duplicate server
variants. The definitions below are shallow embeddings of the relevant
JavaScript functions:

* `validateInquiryData`, `findVehicle` — from `src/src/routes/api.js`
  (the `inquiryController` section).
* `verifyRecaptchaMain` — from `src/index.js` (`verifyRecaptcha`).
* `verifyRecaptchaMw` — from `src/unnamed/part_002` (`verifyRecaptcha` in
  the recaptcha middleware module).
* `verifyRecaptchaCached` — from `src/unnamed/part_006` (`verifyRecaptcha`
  with the token cache).
* `inquiryHandler5` — from `src/unnamed/part_005` (`app.post('/api/inquiry')`,
  structurally identical to the handler in `src/unnamed/part_004`).
* `generateEmailTemplate` — from `src/utils/email.js`.

Modelling conventions: request-body fields are optional strings (`none` =
absent; JavaScript falsiness of a string is emptiness); timestamps are
naturals (milliseconds); the external reCAPTCHA HTTP call is an explicit
`NetResult` argument (`ok s` = the call resolved and the parsed response had
`success = s`; `err` = the call threw / the response failed to parse);
the mail transport outcome is an explicit boolean argument. Exceptions that
cross a function boundary are `Except.error`; `try/catch` blocks in the
source appear as explicit branching on these arguments.
-/

/-- ASCII whitespace recognised by the JavaScript `\s` class and `trim()`
(the unicode whitespace cases are not exercised by any claim). -/
def jsWsChar (c : Char) : Bool :=
  c = ' ' || c = '\t' || c = '\n' || c = '\r' || c = '\x0b' || c = '\x0c'

/-- JavaScript truthiness of an optional string field: absent (`undefined`)
and the empty string are falsy. -/
def truthy : Option String → Bool
  | none => false
  | some s => !s.isEmpty

/-- Reading an optional field once it is known to be truthy. -/
def getStr (o : Option String) : String :=
  o.getD ""

/-- `String.prototype.trim()`: drop leading and trailing whitespace. -/
def jsTrim (s : String) : String :=
  ⟨((s.data.dropWhile jsWsChar).reverse.dropWhile jsWsChar).reverse⟩

/-- Split a character list at every occurrence of a separator character
(the list-level counterpart of splitting a string on a one-character
separator). -/
def splitOnChar (sep : Char) : List Char → List (List Char)
  | [] => [[]]
  | c :: rest =>
    let r := splitOnChar sep rest
    if c = sep then [] :: r
    else
      match r with
      | [] => [[c]]
      | g :: gs => (c :: g) :: gs

/-- Whether the tail of a character list contains a '.' that is not its last
element.  Used by `emailRegexTest`. -/
def dotNotLast : List Char → Bool
  | [] => false
  | [_] => false
  | c :: rest => (c = '.') || dotNotLast rest

/-- The test `/^[^\s@]+@[^\s@]+\.[^\s@]+$/.test(email)` used by every server
variant.  The regex matches exactly the strings of the form
`local ++ "@" ++ domain` where `local` and `domain` are nonempty, contain no
whitespace and no `@` (hence exactly one `@` in the whole string), and
`domain` contains a `.` that is neither its first nor its last character
(the backtracking split `domain = B ++ "." ++ C` with `B`, `C` nonempty). -/
def emailRegexTest (s : String) : Bool :=
  match splitOnChar '@' s.data with
  | [localPart, domain] =>
    !localPart.isEmpty && localPart.all (fun c => !jsWsChar c) &&
    !domain.isEmpty && domain.all (fun c => !jsWsChar c) &&
    dotNotLast (domain.drop 1)
  | _ => false

/-- Decimal digits to a natural number. -/
def digitsToNat (l : List Char) : Nat :=
  l.foldl (fun acc c => acc * 10 + (c.toNat - 48)) 0

/-- JavaScript `parseInt(s)` restricted to decimal inputs: skip leading
whitespace, read an optional sign and then the longest digit prefix; `NaN`
(no digits) is `none`.  (`parseInt` without a radix also accepts `0x`-prefixed
hex input; no claim involves such an input, so only the decimal grammar is
modelled.) -/
def jsParseInt (s : String) : Option Int :=
  let l := s.toList.dropWhile jsWsChar
  let signed : Int × List Char :=
    match l with
    | '+' :: rest => (1, rest)
    | '-' :: rest => (-1, rest)
    | _ => (1, l)
  let ds := signed.2.takeWhile Char.isDigit
  if ds.isEmpty then none else some (signed.1 * (digitsToNat ds : Int))

/-- The `ApiError(status, message)` value thrown by the controller and
middleware in `src/src` (the `details` payload is not used by any claim). -/
structure ApiError where
  status : Nat
  message : String
deriving Repr, DecidableEq

/-- An untrusted `/api/inquiry` request body.  Each field is an optional
string (`none` = absent). -/
structure InquiryReq where
  vehicleId : Option String
  purpose : Option String
  date : Option String
  email : Option String
  description : Option String
  captchaToken : Option String
deriving Repr, DecidableEq

/-- The four required fields, in the controller's check order. -/
inductive ReqField
  | vehicleId
  | purpose
  | date
  | email
deriving Repr, DecidableEq

/-- Whether a required field counts as missing for `validateInquiryData`:
`vehicleId` and `date` when falsy, `purpose` and `email` when falsy or blank
after trimming (`!f || !f.trim()`). -/
def missingField (data : InquiryReq) : ReqField → Bool
  | .vehicleId => !truthy data.vehicleId
  | .purpose => !truthy data.purpose || (jsTrim (getStr data.purpose)).isEmpty
  | .date => !truthy data.date
  | .email => !truthy data.email || (jsTrim (getStr data.email)).isEmpty

/-- The fixed check order of `validateInquiryData`. -/
def checkOrder : List ReqField :=
  [.vehicleId, .purpose, .date, .email]

/-- The first missing required field in check order, if any. -/
def firstMissing (data : InquiryReq) : Option ReqField :=
  checkOrder.find? (missingField data)

/-- The `ApiError` message reported for each missing required field. -/
def requiredMessage : ReqField → String
  | .vehicleId => "Vehicle ID is required"
  | .purpose => "Purpose is required"
  | .date => "Date is required"
  | .email => "Email is required"

/-- `validateInquiryData` from `src/src/routes/api.js` (inquiryController).
`nodeEnv` is `config.NODE_ENV`; `parseDate` models `new Date(string)`
(environment-defined parsing; `none` = Invalid Date, `some t` = timestamp in
ms); `todayMidnight` is `new Date()` with the time-of-day zeroed.  The checks
appear in the source order: required fields, email format, date parse, and
the past-date check, which is skipped (logged only) when
`config.isDevelopment()`, i.e. exactly when `NODE_ENV === 'development'`. -/
def validateInquiryData (nodeEnv : String) (parseDate : String → Option Int)
    (todayMidnight : Int) (data : InquiryReq) : Except ApiError InquiryReq :=
  if !truthy data.vehicleId then
    .error ⟨400, "Vehicle ID is required"⟩
  else if !truthy data.purpose || (jsTrim (getStr data.purpose)).isEmpty then
    .error ⟨400, "Purpose is required"⟩
  else if !truthy data.date then
    .error ⟨400, "Date is required"⟩
  else if !truthy data.email || (jsTrim (getStr data.email)).isEmpty then
    .error ⟨400, "Email is required"⟩
  else if !emailRegexTest (getStr data.email) then
    .error ⟨400, "Invalid email format"⟩
  else
    match parseDate (getStr data.date) with
    | none => .error ⟨400, "Invalid date format"⟩
    | some selectedDate =>
      if selectedDate < todayMidnight && !(nodeEnv == "development") then
        .error ⟨400, "Date must be in the future"⟩
      else
        .ok data

/-- Outcome of one external reCAPTCHA verification HTTP call:
`ok s` = the call resolved and the parsed response body had `success = s`;
`err` = the call threw (network failure) or the response did not parse. -/
inductive NetResult
  | ok (success : Bool)
  | err
deriving Repr, DecidableEq

/-- `verifyRecaptcha` from `src/index.js` (the main server variant).
Returns `(result, networkCalled)`.  The source order: with no
`RECAPTCHA_SECRET` return `false`; tokens longer than 1000 characters are
accepted without calling the verification endpoint; otherwise the endpoint
is called and `response.data.success` returned, the surrounding `catch`
turning any thrown error into `false`. -/
def verifyRecaptchaMain (secretSet : Bool) (token : String) (net : NetResult) :
    Bool × Bool :=
  if !secretSet then
    (false, false)
  else if token.length > 1000 then
    (true, false)
  else
    match net with
    | .ok s => (s, true)
    | .err => (false, true)

/-- `verifyRecaptcha` from `src/unnamed/part_002` (the recaptcha middleware
module of the `src/src` variant).  It returns `response.data` (modelled by
its `success` field, the only part the claims use); its `catch` block does
not return a result — it throws `ApiError(500, 'Failed to verify reCAPTCHA')`
to the caller. -/
def verifyRecaptchaMw (token : String) (net : NetResult) :
    Except ApiError Bool :=
  match net with
  | .ok s => .ok s
  | .err => .error ⟨500, "Failed to verify reCAPTCHA"⟩

/-- One entry of the `recaptchaCache` Map in `src/unnamed/part_006`:
`recaptchaCache.set(token, { valid, timestamp })`. -/
structure CEntry where
  key : String
  valid : Bool
  ts : Nat
deriving Repr, DecidableEq

/-- The `recaptchaCache` Map, as an insertion-ordered association list. -/
abbrev RCache := List CEntry

/-- `RECAPTCHA_CACHE_TTL` (5 minutes in ms) from `src/unnamed/part_006`. -/
def RECAPTCHA_CACHE_TTL : Nat := 300000

/-- `recaptchaCache.get(token)` (first entry with the key). -/
def cacheLookup (c : RCache) (tok : String) : Option CEntry :=
  c.find? (fun e => e.key == tok)

/-- `recaptchaCache.delete(token)`. -/
def cacheDelete (c : RCache) (tok : String) : RCache :=
  c.filter (fun e => !(e.key == tok))

/-- `recaptchaCache.set(token, { valid, timestamp })`.  (A JS Map keeps an
existing key at its original position; this model moves it to the end, which
is indistinguishable by `get`/`has`/`delete` and by the pointwise cleanup
sweep.) -/
def cacheSet (c : RCache) (tok : String) (v : Bool) (t : Nat) : RCache :=
  cacheDelete c tok ++ [⟨tok, v, t⟩]

/-- The periodic sweep in `verifyRecaptcha` (part_006): when the cache has
grown past 100 entries, drop every entry older than the TTL. -/
def cacheCleanup (c : RCache) (now : Nat) : RCache :=
  c.filter (fun e => !(now - e.ts > RECAPTCHA_CACHE_TTL))

/-- Result of one `verifyRecaptcha` call in `src/unnamed/part_006`:
the boolean outcome, the cache state after the call, and whether the
external verification endpoint was contacted. -/
structure VerifyOutcome where
  valid : Bool
  cache : RCache
  networkCalled : Bool
deriving Repr, DecidableEq

/-- The portion of part_006's `verifyRecaptcha` after the cache check: the
axios call to the verification endpoint — a thrown error is caught and
becomes `false` (nothing cached), while a parsed response has
`isValid = !!response.data.success` cached under the token with the current
timestamp (followed by the size-triggered cleanup sweep). -/
def verifyRecaptchaFetch (c : RCache) (token : String) (now : Nat)
    (net : NetResult) : VerifyOutcome :=
  match net with
  | .err => ⟨false, c, true⟩
  | .ok s =>
    let c1 := cacheSet c token s now
    let c2 := if c1.length > 100 then cacheCleanup c1 now else c1
    ⟨s, c2, true⟩

/-- `verifyRecaptcha` from `src/unnamed/part_006` (the cached variant),
assembled from the cache check and `verifyRecaptchaFetch`.  Source order:
with no `RECAPTCHA_SECRET` return `false`; a fresh cached entry for the
token is returned without a network call, an expired one is deleted;
otherwise the fetch portion runs. -/
def verifyRecaptchaCached (secretSet : Bool) (c : RCache) (token : String)
    (now : Nat) (net : NetResult) : VerifyOutcome :=
  if !secretSet then
    ⟨false, c, false⟩
  else
    match cacheLookup c token with
    | some e =>
      if now - e.ts < RECAPTCHA_CACHE_TTL then
        ⟨e.valid, c, false⟩
      else
        verifyRecaptchaFetch (cacheDelete c token) token now net
    | none => verifyRecaptchaFetch c token now net

/-- A vehicle record. -/
structure Vehicle where
  id : Int
  name : String
  description : String
  rate : Int
deriving Repr, DecidableEq

/-- The inline `vehicles` catalog of `src/unnamed/part_005` (identical in
`src/unnamed/part_004`). -/
def vehicles : List Vehicle :=
  [⟨1, "Rolls-Royce Phantom",
    "The epitome of luxury and refinement, perfect for executive travel.", 1500⟩,
   ⟨2, "Bentley Mulsanne",
    "A masterpiece of British craftsmanship, ideal for sophisticated journeys.", 1200⟩,
   ⟨3, "Mercedes-Maybach S-Class",
    "Unmatched elegance and comfort for the discerning traveler.", 1300⟩]

/-- `vehicles.find(v => v.id === parseInt(vehicleId))` from the part_005
handler: numeric coercion of the id followed by an exact-match scan
(`parseInt` returning `NaN` matches nothing). -/
def findVehicle (vehicleId : String) : Option Vehicle :=
  match jsParseInt vehicleId with
  | none => none
  | some n => vehicles.find? (fun v => v.id == n)

/-- The environment state consulted by the part_005 handler: `NODE_ENV`,
whether `RECAPTCHA_SECRET` is set, and whether the nodemailer transporter
was initialized (`EMAIL_USER` and `EMAIL_PASS` both present). -/
structure Env5 where
  nodeEnv : String
  secretSet : Bool
  transporter : Bool
deriving Repr, DecidableEq

/-- The response produced by one part_005 `/api/inquiry` request, together
with two observations of the run: whether the external verification endpoint
was contacted and whether `sendEmail` was invoked.  `emailSent` and
`vehicleName` are the corresponding 200-body fields (`false`/`none` on error
responses, which do not carry them). -/
structure HandlerResult where
  status : Nat
  success : Bool
  message : String
  emailSent : Bool
  vehicleName : Option String
  networkCalled : Bool
  emailAttempted : Bool
deriving Repr, DecidableEq

/-- Whether the part_005 handler's verification gate reaches the axios call:
the gate runs when a captcha token is supplied, the secret is configured and
`NODE_ENV === 'production'`; inside it the fixed `'TESTING_TOKEN'` skips the
call. -/
def gateCallsNetwork (env : Env5) (req : InquiryReq) : Bool :=
  truthy req.captchaToken && env.secretSet && env.nodeEnv == "production" &&
    !(getStr req.captchaToken == "TESTING_TOKEN")

/-- The tail of the part_005 handler: the guarded email attempt —
`sendEmail` runs only when the transporter exists, and a send failure
(`sendOk = false`) is caught so the 200 response is still returned with
`emailSent` reflecting the outcome. -/
def inquirySuccess (env : Env5) (vehicle : Vehicle) (sendOk : Bool)
    (called : Bool) : HandlerResult :=
  ⟨200, true, "Inquiry received successfully", env.transporter && sendOk,
   some vehicle.name, called, env.transporter⟩

/-- `app.post('/api/inquiry')` from `src/unnamed/part_005` (structurally
identical in `src/unnamed/part_004`): presence validation, email-format
validation, vehicle lookup, the optional reCAPTCHA gate (where a response
with `success = false` rejects, but a thrown verification error is caught
and the request continues), then the `inquirySuccess` tail. -/
def inquiryHandler5 (env : Env5) (req : InquiryReq) (net : NetResult)
    (sendOk : Bool) : HandlerResult :=
  if !truthy req.vehicleId || !truthy req.purpose || !truthy req.date ||
      !truthy req.email then
    ⟨400, false, "Missing required fields", false, none, false, false⟩
  else if !emailRegexTest (getStr req.email) then
    ⟨400, false, "Invalid email format", false, none, false, false⟩
  else
    match findVehicle (getStr req.vehicleId) with
    | none => ⟨404, false, "Vehicle not found", false, none, false, false⟩
    | some vehicle =>
      if gateCallsNetwork env req then
        match net with
        | .ok false =>
          ⟨400, false, "CAPTCHA verification failed", false, none, true, false⟩
        | _ => inquirySuccess env vehicle sendOk true
      else inquirySuccess env vehicle sendOk false
/-- The `htmlTemplate` literal of `generateEmailTemplate` in
`src/utils/email.js`, verbatim (placeholder braces written as escapes). -/
def htmlTemplate : String :=
  "
    <!DOCTYPE html>
    <html>
    <head>
      <meta charset=\"utf-8\">
      <title>Presidential Chauffeurs Inquiry</title>
      <style>
        body \x7b
          font-family: Arial, sans-serif;
          line-height: 1.6;
          color: #333;
          max-width: 600px;
          margin: 0 auto;
        \x7d
        .header \x7b
          background-color: #1a1a1a;
          color: #D4AF37;
          padding: 20px;
          text-align: center;
        \x7d
        .content \x7b
          padding: 20px;
          border: 1px solid #ddd;
          border-top: none;
        \x7d
        .vehicle-card \x7b
          background-color: #faf9f2;
          border-left: 4px solid #D4AF37;
          padding: 15px;
          margin-bottom: 20px;
        \x7d
        .vehicle-name \x7b
          color: #D4AF37;
          font-size: 18px;
          font-weight: bold;
          margin: 0 0 5px 0;
        \x7d
        .vehicle-description \x7b
          margin: 0;
          font-size: 14px;
        \x7d
        .detail-row \x7b
          display: table;
          width: 100%;
          margin-bottom: 10px;
        \x7d
        .detail-label \x7b
          display: table-cell;
          font-weight: bold;
          width: 150px;
        \x7d
        .detail-value \x7b
          display: table-cell;
        \x7d
        .additional-details \x7b
          margin-top: 20px;
        \x7d
        .footer \x7b
          background-color: #f4f4f4;
          padding: 10px 20px;
          text-align: center;
          font-size: 12px;
          color: #666;
        \x7d
        .button \x7b
          display: inline-block;
          background-color: #D4AF37;
          color: white;
          padding: 10px 20px;
          text-decoration: none;
          border-radius: 4px;
          margin-top: 20px;
        \x7d
      </style>
    </head>
    <body>
      <div class=\"header\">
        <h1>PRESIDENTIAL CHAUFFEURS</h1>
      </div>
      <div class=\"content\">
        <h2>New Service Inquiry</h2>
        
        <div class=\"vehicle-card\">
          <h3 class=\"vehicle-name\">\x7b\x7bvehicleName\x7d\x7d</h3>
          <p class=\"vehicle-description\">The epitome of luxury and refinement, perfect for executive travel.</p>
        </div>
        
        <div class=\"detail-row\">
          <div class=\"detail-label\">Purpose:</div>
          <div class=\"detail-value\">\x7b\x7bpurpose\x7d\x7d</div>
        </div>
        
        <div class=\"detail-row\">
          <div class=\"detail-label\">Requested Date:</div>
          <div class=\"detail-value\">\x7b\x7bdate\x7d\x7d</div>
        </div>
        
        <div class=\"detail-row\">
          <div class=\"detail-label\">Customer Email:</div>
          <div class=\"detail-value\">\x7b\x7bemail\x7d\x7d</div>
        </div>
        
        <div class=\"additional-details\">
          <div class=\"detail-label\">Additional Details:</div>
          <div class=\"detail-value\">\x7b\x7bdescription\x7d\x7d</div>
        </div>
        
        <p>This inquiry was submitted through the Presidential Chauffeurs website.</p>
        
        <a href=\"mailto:\x7b\x7bemail\x7d\x7d?subject=Re: Inquiry for \x7b\x7bvehicleName\x7d\x7d - Presidential Chauffeurs&body=Dear Customer,%0A%0AThank you for your inquiry about our \x7b\x7bvehicleName\x7d\x7d service for \x7b\x7bpurpose\x7d\x7d on \x7b\x7bdate\x7d\x7d.%0A%0AWe appreciate your interest in Presidential Chauffeurs and would like to provide you with more information.%0A%0A\" class=\"button\">Reply to Customer</a>
      </div>
      <div class=\"footer\">
        <p>&copy; \x7b\x7bcurrentYear\x7d\x7d Presidential Chauffeurs Inc. All rights reserved.</p>
        <p>This is an automated message. Please do not reply directly to this email.</p>
      </div>
    </body>
    </html>
  "

/-- The inquiry fields consumed by `generateEmailTemplate`
(`src/utils/email.js`): all five are substituted into the template. -/
structure EmailData where
  vehicleName : String
  purpose : String
  date : String
  email : String
  description : String
deriving Repr, DecidableEq

/-- The placeholder-substitution chain applied to a template string, in the
source order: vehicleName, purpose, date, email, description, currentYear.
Each step is a global fixed-pattern replacement (`.replace(/\{\{name\}\}/g, v)`;
the `$`-escape sequences JavaScript recognises inside a replacement string
are not modelled — no claim depends on them, and both code paths of
`generateEmailTemplate` apply the identical chain). -/
def fillTemplate (t : String) (d : EmailData) (currentYear : Nat) : String :=
  (((((t.replace "\x7b\x7bvehicleName\x7d\x7d" d.vehicleName).replace
    "\x7b\x7bpurpose\x7d\x7d" d.purpose).replace
    "\x7b\x7bdate\x7d\x7d" d.date).replace
    "\x7b\x7bemail\x7d\x7d" d.email).replace
    "\x7b\x7bdescription\x7d\x7d" d.description).replace
    "\x7b\x7bcurrentYear\x7d\x7d" (toString currentYear)

/-- The module-level `templateCache` of `src/utils/email.js`
(`{ html: null, lastUpdated: 0 }` at load). -/
structure TemplateCache where
  html : Option String
  lastUpdated : Nat
deriving Repr, DecidableEq

/-- `TEMPLATE_CACHE_TTL` (1 hour in ms) from `src/utils/email.js`. -/
def TEMPLATE_CACHE_TTL : Nat := 3600000

/-- Result of one `generateEmailTemplate` call: the produced HTML, the
template-cache state after the call, and which code path ran
(`usedCache = true` for the cached-template path). -/
structure GenResult where
  html : String
  cache : TemplateCache
  usedCache : Bool
deriving Repr, DecidableEq

/-- `generateEmailTemplate` from `src/utils/email.js`.  `now` is the frozen
clock (`Date.now()`) and `year` the frozen `new Date().getFullYear()`.  With
a cached, unexpired template the substitution chain runs on the cached
string; otherwise it runs on the `htmlTemplate` literal, which is first
stored in the cache with the current timestamp. -/
def generateEmailTemplate (cache : TemplateCache) (now : Nat) (year : Nat)
    (d : EmailData) : GenResult :=
  match cache.html with
  | some t =>
    if now - cache.lastUpdated < TEMPLATE_CACHE_TTL then
      ⟨fillTemplate t d year, cache, true⟩
    else
      ⟨fillTemplate htmlTemplate d year, ⟨some htmlTemplate, now⟩, false⟩
  | none =>
    ⟨fillTemplate htmlTemplate d year, ⟨some htmlTemplate, now⟩, false⟩

/-- A well-formed request whose date parses to a time before today's
midnight; used as concrete input for the date claims. -/
def reqPastDate : InquiryReq :=
  ⟨some "1", some "Wedding", some "2020-01-01", some "a@b.co", none, none⟩

/-- A request whose date does not parse and whose email is also invalid;
used as concrete input for the date-parse ordering claim. -/
def reqBadDateBadEmail : InquiryReq :=
  ⟨some "1", some "Wedding", some "not-a-date", some "not-an-email", none, none⟩

/-- C2: for every inquiry request with at least one missing required field,
`validateInquiryData` returns a 400 client error naming exactly the first
missing field in the fixed order vehicleId, purpose, date, email
(purpose and email counting as missing when blank after trim). -/
theorem validate_first_missing_field (nodeEnv : String)
    (parseDate : String → Option Int) (todayMidnight : Int)
    (data : InquiryReq) (f : ReqField)
    (h : firstMissing data = some f) :
    validateInquiryData nodeEnv parseDate todayMidnight data =
      Except.error ⟨400, requiredMessage f⟩ := by
  unfold firstMissing checkOrder at h
  cases h1 : missingField data ReqField.vehicleId <;>
    cases h2 : missingField data ReqField.purpose <;>
      cases h3 : missingField data ReqField.date <;>
        cases h4 : missingField data ReqField.email <;>
          simp [List.find?, h1, h2, h3, h4] at h <;>
            (try subst h) <;>
              simp only [missingField] at h1 h2 h3 h4 <;>
                simp [validateInquiryData, requiredMessage, h1, h2, h3, h4]

/-- Witness for C2: a request whose purpose is blank after trimming (all
earlier fields present) is rejected with the purpose-required error. -/
theorem validate_first_missing_field_witness :
    firstMissing ⟨some "1", some " ", some "2025-12-31", some "a@b.co", none, none⟩ =
      some ReqField.purpose ∧
    validateInquiryData "production" (fun _ => some 0) 0
        ⟨some "1", some " ", some "2025-12-31", some "a@b.co", none, none⟩ =
      Except.error ⟨400, requiredMessage ReqField.purpose⟩ :=
  ⟨by decide, validate_first_missing_field _ _ _ _ _ (by decide)⟩

/-- Counterexample for C5: `"test"` is a non-production mode, yet a date
strictly before today's midnight (here the parse gives 0 against midnight
100) is rejected with the past-date error — the leniency branch requires
`NODE_ENV === 'development'`, not merely non-production. -/
theorem validate_past_date_test_mode_rejects :
    ("test" == "production") = false ∧
    validateInquiryData "test" (fun _ => some 0) 100 reqPastDate =
      Except.error ⟨400, "Date must be in the future"⟩ :=
  ⟨rfl, rfl⟩

/-- C5 (amended): given fields that pass the earlier checks and a date value
parsing strictly before today's midnight, `validateInquiryData` fails with
the past-date error in every mode other than `development` (production and
test included), and accepts (with only a logged warning) exactly in
`development` mode. -/
theorem validate_past_date_dev_leniency (nodeEnv : String)
    (parseDate : String → Option Int) (todayMidnight : Int)
    (data : InquiryReq) (selectedDate : Int)
    (h1 : truthy data.vehicleId = true)
    (h2 : (!truthy data.purpose || (jsTrim (getStr data.purpose)).isEmpty) = false)
    (h3 : truthy data.date = true)
    (h4 : (!truthy data.email || (jsTrim (getStr data.email)).isEmpty) = false)
    (h5 : emailRegexTest (getStr data.email) = true)
    (h6 : parseDate (getStr data.date) = some selectedDate)
    (h7 : selectedDate < todayMidnight) :
    validateInquiryData nodeEnv parseDate todayMidnight data =
      if nodeEnv == "development" then Except.ok data
      else Except.error ⟨400, "Date must be in the future"⟩ := by
  cases hdev : (nodeEnv == "development") <;>
    simp [validateInquiryData, h1, h2, h3, h4, h5, h6, h7, hdev]

/-- Witness for C5 (amended): in production mode, a parsed date of 0 against
midnight 100 is rejected with the past-date error. -/
theorem validate_past_date_dev_leniency_witness :
    truthy reqPastDate.vehicleId = true ∧
    (!truthy reqPastDate.purpose || (jsTrim (getStr reqPastDate.purpose)).isEmpty) = false ∧
    truthy reqPastDate.date = true ∧
    (!truthy reqPastDate.email || (jsTrim (getStr reqPastDate.email)).isEmpty) = false ∧
    emailRegexTest (getStr reqPastDate.email) = true ∧
    ((fun _ => some 0) (getStr reqPastDate.date) : Option Int) = some 0 ∧
    (0 : Int) < 100 ∧
    validateInquiryData "production" (fun _ => some 0) 100 reqPastDate =
      if "production" == "development" then Except.ok reqPastDate
      else Except.error ⟨400, "Date must be in the future"⟩ :=
  ⟨by decide, by decide, by decide, by decide, by decide, rfl, by decide,
   validate_past_date_dev_leniency "production" (fun _ => some 0) 100
     reqPastDate 0 (by decide) (by decide) (by decide) (by decide) (by decide)
     rfl (by decide)⟩

/-- Counterexample for C7: a request whose date field does not parse but
whose email is also invalid fails with the email-format error, not
`InvalidDate` — the email-format check precedes the date-parse check in
`validateInquiryData`. -/
theorem validate_unparsable_date_not_invalid_date :
    validateInquiryData "production" (fun _ => none) 0 reqBadDateBadEmail =
      Except.error ⟨400, "Invalid email format"⟩ ∧
    validateInquiryData "production" (fun _ => none) 0 reqBadDateBadEmail ≠
      Except.error ⟨400, "Invalid date format"⟩ := by
  refine ⟨rfl, fun h => ?_⟩
  rw [show validateInquiryData "production" (fun _ => none) 0 reqBadDateBadEmail =
    Except.error ⟨400, "Invalid email format"⟩ from rfl] at h
  exact absurd (Except.error.inj h) (by decide)

/-- C7 (amended): given fields that pass the earlier checks (email format
included), a date field that is present but does not parse to a valid
calendar date fails with the distinct invalid-date error. -/
theorem validate_unparsable_date_invalid_format (nodeEnv : String)
    (parseDate : String → Option Int) (todayMidnight : Int)
    (data : InquiryReq)
    (h1 : truthy data.vehicleId = true)
    (h2 : (!truthy data.purpose || (jsTrim (getStr data.purpose)).isEmpty) = false)
    (h3 : truthy data.date = true)
    (h4 : (!truthy data.email || (jsTrim (getStr data.email)).isEmpty) = false)
    (h5 : emailRegexTest (getStr data.email) = true)
    (h6 : parseDate (getStr data.date) = none) :
    validateInquiryData nodeEnv parseDate todayMidnight data =
      Except.error ⟨400, "Invalid date format"⟩ := by
  simp [validateInquiryData, h1, h2, h3, h4, h5, h6]

/-- Witness for C7 (amended): a well-formed request whose date string fails
to parse is rejected with the invalid-date error. -/
theorem validate_unparsable_date_invalid_format_witness :
    truthy reqPastDate.vehicleId = true ∧
    (!truthy reqPastDate.purpose || (jsTrim (getStr reqPastDate.purpose)).isEmpty) = false ∧
    truthy reqPastDate.date = true ∧
    (!truthy reqPastDate.email || (jsTrim (getStr reqPastDate.email)).isEmpty) = false ∧
    emailRegexTest (getStr reqPastDate.email) = true ∧
    ((fun _ => none) (getStr reqPastDate.date) : Option Int) = none ∧
    validateInquiryData "production" (fun _ => none) 0 reqPastDate =
      Except.error ⟨400, "Invalid date format"⟩ :=
  ⟨by decide, by decide, by decide, by decide, by decide, rfl,
   validate_unparsable_date_invalid_format "production" (fun _ => none) 0
     reqPastDate (by decide) (by decide) (by decide) (by decide) (by decide) rfl⟩

/-- Counterexample for C3: in the `src/unnamed/part_002` variant, a network
failure of the external verification call is rethrown as an
`ApiError(500, ...)` past the verify boundary — an exception, not a
`valid: false` result. -/
theorem verifyRecaptchaMw_throws_on_network_failure :
    verifyRecaptchaMw "some-token" NetResult.err =
      Except.error ⟨500, "Failed to verify reCAPTCHA"⟩ :=
  rfl

/-- C3 (amended): in the main server variant (`src/index.js`, likewise
part_006), any network or parse failure of the external verification call
yields `false` — a failed verification, never an exception — for every
token outside the long-token bypass. -/
theorem verifyRecaptchaMain_error_yields_false (secretSet : Bool)
    (token : String) (h : token.length ≤ 1000) :
    (verifyRecaptchaMain secretSet token NetResult.err).fst = false := by
  cases secretSet <;> simp [verifyRecaptchaMain, Nat.not_lt.mpr h]

/-- Witness for C3 (amended): a short token with the secret configured. -/
theorem verifyRecaptchaMain_error_yields_false_witness :
    ("abc".length ≤ 1000) ∧
    (verifyRecaptchaMain true "abc" NetResult.err).fst = false :=
  ⟨by decide, verifyRecaptchaMain_error_yields_false true "abc" (by decide)⟩

/-- A 1001-character token, exercising the long-token bypass of
`src/index.js`. -/
def longToken : String :=
  ⟨List.replicate 1001 'a'⟩

/-- The length computation for `longToken`. -/
theorem longToken_length : longToken.length = 1001 := by
  show (List.replicate 1001 'a').length = 1001
  rw [List.length_replicate]

/-- Counterexample for C10: with `RECAPTCHA_SECRET` unset, `verifyRecaptcha`
in `src/index.js` returns `false` even for a token longer than 1000
characters — the secret check precedes the long-token bypass. -/
theorem verifyRecaptchaMain_long_token_needs_secret :
    longToken.length = 1001 ∧
    (verifyRecaptchaMain false longToken NetResult.err).fst = false :=
  ⟨longToken_length, rfl⟩

/-- C10 (amended): with `RECAPTCHA_SECRET` configured, every token longer
than 1000 characters is accepted immediately — result `true` with no call
to the external verification service — regardless of the network outcome
the service would have produced. -/
theorem verifyRecaptchaMain_long_token_bypass (token : String)
    (net : NetResult) (h : token.length > 1000) :
    verifyRecaptchaMain true token net = (true, false) := by
  simp [verifyRecaptchaMain, h]

/-- Witness for C10 (amended): the 1001-character token. -/
theorem verifyRecaptchaMain_long_token_bypass_witness :
    (longToken.length > 1000) ∧
    verifyRecaptchaMain true longToken NetResult.err = (true, false) :=
  ⟨by rw [longToken_length]; decide,
   verifyRecaptchaMain_long_token_bypass longToken NetResult.err
     (by rw [longToken_length]; decide)⟩

/-- Deleting a token leaves no entry under that key. -/
theorem cacheLookup_delete_self (c : RCache) (tok : String) :
    cacheLookup (cacheDelete c tok) tok = none := by
  unfold cacheLookup cacheDelete
  apply List.find?_eq_none.mpr
  intro e he
  have hp := List.of_mem_filter he
  simpa using hp

/-- After `cacheSet`, the token maps to the stored entry. -/
theorem cacheLookup_set_self (c : RCache) (tok : String) (v : Bool) (t : Nat) :
    cacheLookup (cacheSet c tok v t) tok = some ⟨tok, v, t⟩ := by
  have h := cacheLookup_delete_self c tok
  unfold cacheLookup at h ⊢
  unfold cacheSet cacheDelete at *
  rw [List.find?_append, h]
  simp [List.find?]

/-- After the fetch portion stores a parsed outcome at time `t`, the token
maps to that outcome with timestamp `t` — the cleanup sweep (which never
drops an entry written at the sweep's own timestamp) included. -/
theorem cacheLookup_fetch_store (c : RCache) (tok : String) (v : Bool)
    (t : Nat) :
    cacheLookup (verifyRecaptchaFetch c tok t (NetResult.ok v)).cache tok =
      some ⟨tok, v, t⟩ := by
  show cacheLookup
    (if (cacheSet c tok v t).length > 100
     then cacheCleanup (cacheSet c tok v t) t
     else cacheSet c tok v t) tok = some ⟨tok, v, t⟩
  split
  · unfold cacheCleanup cacheSet
    rw [List.filter_append]
    unfold cacheLookup
    rw [List.find?_append]
    have h1 : List.find? (fun e => e.key == tok)
        (List.filter (fun e => !(t - e.ts > RECAPTCHA_CACHE_TTL))
          (cacheDelete c tok)) = none := by
      apply List.find?_eq_none.mpr
      intro e he
      have hmem := List.mem_of_mem_filter he
      unfold cacheDelete at hmem
      have hp := List.of_mem_filter hmem
      simpa using hp
    rw [h1]
    simp [List.filter, List.find?, Nat.sub_self, RECAPTCHA_CACHE_TTL]
  · exact cacheLookup_set_self c tok v t

/-- A fresh cache hit returns the stored value without touching the cache or
the network. -/
theorem verifyRecaptchaCached_hit (cc : RCache) (tok : String) (t2 : Nat)
    (net2 : NetResult) (e : CEntry)
    (hcc : cacheLookup cc tok = some e)
    (hf : t2 - e.ts < RECAPTCHA_CACHE_TTL) :
    verifyRecaptchaCached true cc tok t2 net2 = ⟨e.valid, cc, false⟩ := by
  unfold verifyRecaptchaCached
  simp [hcc, hf]

/-- When a call of the cached verifier does reach the network and the call
parses to `s`, the call returns `s` and stores `s` for the token at the call
timestamp — regardless of whether `s` is `true` or `false`. -/
theorem verifyRecaptchaCached_store (c0 : RCache) (token : String) (t1 : Nat)
    (s : Bool)
    (hn : (verifyRecaptchaCached true c0 token t1 (NetResult.ok s)).networkCalled = true) :
    (verifyRecaptchaCached true c0 token t1 (NetResult.ok s)).valid = s ∧
    cacheLookup (verifyRecaptchaCached true c0 token t1 (NetResult.ok s)).cache token =
      some ⟨token, s, t1⟩ := by
  unfold verifyRecaptchaCached at hn ⊢
  cases hl : cacheLookup c0 token with
  | none =>
    simp only [hl, Bool.not_true, Bool.false_eq_true, if_false]
    exact ⟨rfl, cacheLookup_fetch_store c0 token s t1⟩
  | some e =>
    simp only [hl, Bool.not_true, Bool.false_eq_true, if_false] at hn ⊢
    split at hn
    · simp at hn
    · next hf =>
      rw [if_neg hf]
      exact ⟨rfl, cacheLookup_fetch_store (cacheDelete c0 token) token s t1⟩

/-- C4 (amended): two calls of part_006's cached verifier with the same
token within the TTL window contact the external endpoint at most once,
provided the first call's network request (if one is made) completes with a
parsed response: the parsed boolean outcome — negative included — is stored
under the token, and the second call is answered from the cache. -/
theorem verifyRecaptcha_ttl_caching (c0 : RCache) (token : String)
    (t1 t2 : Nat) (s : Bool) (net2 : NetResult)
    (h : t2 - t1 < RECAPTCHA_CACHE_TTL) :
    ((verifyRecaptchaCached true c0 token t1 (NetResult.ok s)).networkCalled = true →
      cacheLookup (verifyRecaptchaCached true c0 token t1 (NetResult.ok s)).cache token =
        some ⟨token, s, t1⟩ ∧
      (verifyRecaptchaCached true
        (verifyRecaptchaCached true c0 token t1 (NetResult.ok s)).cache
        token t2 net2).valid = s ∧
      (verifyRecaptchaCached true
        (verifyRecaptchaCached true c0 token t1 (NetResult.ok s)).cache
        token t2 net2).networkCalled = false) ∧
    ¬((verifyRecaptchaCached true c0 token t1 (NetResult.ok s)).networkCalled = true ∧
      (verifyRecaptchaCached true
        (verifyRecaptchaCached true c0 token t1 (NetResult.ok s)).cache
        token t2 net2).networkCalled = true) := by
  constructor
  · intro hn
    obtain ⟨hv, hstore⟩ := verifyRecaptchaCached_store c0 token t1 s hn
    have hhit := verifyRecaptchaCached_hit _ token t2 net2 ⟨token, s, t1⟩
      hstore (by simpa using h)
    rw [hhit]
    exact ⟨hstore, rfl, rfl⟩
  · rintro ⟨hn1, hn2⟩
    obtain ⟨hv, hstore⟩ := verifyRecaptchaCached_store c0 token t1 s hn1
    have hhit := verifyRecaptchaCached_hit _ token t2 net2 ⟨token, s, t1⟩
      hstore (by simpa using h)
    rw [hhit] at hn2
    simp at hn2

/-- Witness for C4 (amended): a negative outcome (`success = false`) is
cached and the second call within the TTL answers from the cache with no
second network call. -/
theorem verifyRecaptcha_ttl_caching_witness :
    (1 - 0 < RECAPTCHA_CACHE_TTL) ∧
    ((verifyRecaptchaCached true [] "tok" 0 (NetResult.ok false)).networkCalled = true →
      cacheLookup (verifyRecaptchaCached true [] "tok" 0 (NetResult.ok false)).cache "tok" =
        some ⟨"tok", false, 0⟩ ∧
      (verifyRecaptchaCached true
        (verifyRecaptchaCached true [] "tok" 0 (NetResult.ok false)).cache
        "tok" 1 NetResult.err).valid = false ∧
      (verifyRecaptchaCached true
        (verifyRecaptchaCached true [] "tok" 0 (NetResult.ok false)).cache
        "tok" 1 NetResult.err).networkCalled = false) ∧
    ¬((verifyRecaptchaCached true [] "tok" 0 (NetResult.ok false)).networkCalled = true ∧
      (verifyRecaptchaCached true
        (verifyRecaptchaCached true [] "tok" 0 (NetResult.ok false)).cache
        "tok" 1 NetResult.err).networkCalled = true) :=
  ⟨by decide, verifyRecaptcha_ttl_caching [] "tok" 0 1 false NetResult.err (by decide)⟩

/-- Counterexample for C4: when the external call fails (throws), nothing is
cached, so two calls with the same token inside one TTL window both contact
the endpoint — and their `false` outcomes were never stored. -/
theorem verifyRecaptcha_error_not_cached :
    (1 - 0 < RECAPTCHA_CACHE_TTL) ∧
    (verifyRecaptchaCached true [] "tok" 0 NetResult.err).networkCalled = true ∧
    (verifyRecaptchaCached true
      (verifyRecaptchaCached true [] "tok" 0 NetResult.err).cache
      "tok" 1 NetResult.err).networkCalled = true ∧
    cacheLookup (verifyRecaptchaCached true [] "tok" 0 NetResult.err).cache "tok" = none :=
  ⟨by decide, rfl, rfl, rfl⟩

/-- The catalog's first vehicle, as inlined in part_005. -/
def vehicle1 : Vehicle :=
  ⟨1, "Rolls-Royce Phantom",
   "The epitome of luxury and refinement, perfect for executive travel.", 1500⟩

/-- A fully valid inquiry request for vehicle 1 with no captcha token. -/
def reqInquiryOk : InquiryReq :=
  ⟨some "1", some "Wedding", some "2025-12-31", some "a@b.co",
   some "Airport transfer", none⟩

/-- A request that passes field validation but names an absent vehicle. -/
def reqVehicle9999 : InquiryReq :=
  ⟨some "9999", some "Wedding", some "2025-12-31", some "a@b.co", none, none⟩

/-- C1: in the emailSent-reporting pipeline (part_005/part_004), when
validation, vehicle resolution and verification pass but the mail dispatch
rejects (`sendOk = false` with the transporter present), the handler still
returns HTTP 200 with `success: true` and `emailSent: false` — the send
failure is never escalated to a request failure. -/
theorem submitInquiry_mail_failure_still_success (env : Env5)
    (req : InquiryReq) (net : NetResult) (v : Vehicle)
    (hfields : (!truthy req.vehicleId || !truthy req.purpose ||
      !truthy req.date || !truthy req.email) = false)
    (hemail : emailRegexTest (getStr req.email) = true)
    (hveh : findVehicle (getStr req.vehicleId) = some v)
    (hver : gateCallsNetwork env req = false ∨ net ≠ NetResult.ok false)
    (htr : env.transporter = true) :
    inquiryHandler5 env req net false =
      ⟨200, true, "Inquiry received successfully", false, some v.name,
       gateCallsNetwork env req, true⟩ := by
  cases hg : gateCallsNetwork env req with
  | false => simp [inquiryHandler5, hfields, hemail, hveh, hg, inquirySuccess, htr]
  | true =>
    rcases hver with hv' | hv'
    · rw [hg] at hv'
      exact absurd hv' (by simp)
    · cases net with
      | err => simp [inquiryHandler5, hfields, hemail, hveh, hg, inquirySuccess, htr]
      | ok b =>
        cases b with
        | true => simp [inquiryHandler5, hfields, hemail, hveh, hg, inquirySuccess, htr]
        | false => exact absurd rfl hv'

/-- Witness for C1: the valid request with no captcha token, transporter
present, send failing. -/
theorem submitInquiry_mail_failure_still_success_witness :
    ((!truthy reqInquiryOk.vehicleId || !truthy reqInquiryOk.purpose ||
      !truthy reqInquiryOk.date || !truthy reqInquiryOk.email) = false) ∧
    emailRegexTest (getStr reqInquiryOk.email) = true ∧
    findVehicle (getStr reqInquiryOk.vehicleId) = some vehicle1 ∧
    gateCallsNetwork ⟨"production", true, true⟩ reqInquiryOk = false ∧
    (⟨"production", true, true⟩ : Env5).transporter = true ∧
    inquiryHandler5 ⟨"production", true, true⟩ reqInquiryOk NetResult.err false =
      ⟨200, true, "Inquiry received successfully", false, some vehicle1.name,
       gateCallsNetwork ⟨"production", true, true⟩ reqInquiryOk, true⟩ :=
  ⟨by decide, by decide, by decide, by decide, rfl,
   submitInquiry_mail_failure_still_success ⟨"production", true, true⟩
     reqInquiryOk NetResult.err vehicle1 (by decide) (by decide) (by decide)
     (Or.inl (by decide)) rfl⟩

/-- C6: a request that passes field validation but whose vehicleId does not
resolve in the catalog (after numeric coercion) yields the 404
vehicle-not-found response, with neither the verification endpoint nor the
email path invoked. -/
theorem submitInquiry_vehicle_not_found (env : Env5) (req : InquiryReq)
    (net : NetResult) (sendOk : Bool)
    (hfields : (!truthy req.vehicleId || !truthy req.purpose ||
      !truthy req.date || !truthy req.email) = false)
    (hemail : emailRegexTest (getStr req.email) = true)
    (hveh : findVehicle (getStr req.vehicleId) = none) :
    inquiryHandler5 env req net sendOk =
      ⟨404, false, "Vehicle not found", false, none, false, false⟩ := by
  simp [inquiryHandler5, hfields, hemail, hveh]

/-- Witness for C6: vehicleId 9999 with otherwise-valid fields. -/
theorem submitInquiry_vehicle_not_found_witness :
    ((!truthy reqVehicle9999.vehicleId || !truthy reqVehicle9999.purpose ||
      !truthy reqVehicle9999.date || !truthy reqVehicle9999.email) = false) ∧
    emailRegexTest (getStr reqVehicle9999.email) = true ∧
    findVehicle (getStr reqVehicle9999.vehicleId) = none ∧
    inquiryHandler5 ⟨"production", true, true⟩ reqVehicle9999 NetResult.err true =
      ⟨404, false, "Vehicle not found", false, none, false, false⟩ :=
  ⟨by decide, by decide, by decide,
   submitInquiry_vehicle_not_found ⟨"production", true, true⟩ reqVehicle9999
     NetResult.err true (by decide) (by decide) (by decide)⟩

/-- C9: the part_005/part_004 verification gate is fail-open.  First
conjunct: when the captcha token is absent, or the secret is unconfigured,
or the mode is not production, or the external call throws, a request that
passed validation and vehicle resolution reaches the email-dispatch step
(attempted exactly when the transporter exists) and returns 200 with
`success: true`.  Second conjunct: the CAPTCHA rejection is produced only
when the gate actually called the endpoint and the service explicitly
responded `success: false`. -/
theorem inquiry_gate_fail_open :
    (∀ (env : Env5) (req : InquiryReq) (net : NetResult) (sendOk : Bool)
       (v : Vehicle),
       (!truthy req.vehicleId || !truthy req.purpose ||
         !truthy req.date || !truthy req.email) = false →
       emailRegexTest (getStr req.email) = true →
       findVehicle (getStr req.vehicleId) = some v →
       (truthy req.captchaToken = false ∨ env.secretSet = false ∨
         (env.nodeEnv == "production") = false ∨ net = NetResult.err) →
       (inquiryHandler5 env req net sendOk).status = 200 ∧
       (inquiryHandler5 env req net sendOk).success = true ∧
       (inquiryHandler5 env req net sendOk).emailAttempted = env.transporter) ∧
    (∀ (env : Env5) (req : InquiryReq) (net : NetResult) (sendOk : Bool),
       (inquiryHandler5 env req net sendOk).message = "CAPTCHA verification failed" →
       gateCallsNetwork env req = true ∧ net = NetResult.ok false) := by
  constructor
  · intro env req net sendOk v hfields hemail hveh hopen
    have hgate : gateCallsNetwork env req = false ∨ net = NetResult.err := by
      rcases hopen with h | h | h | h
      · exact Or.inl (by simp [gateCallsNetwork, h])
      · exact Or.inl (by simp [gateCallsNetwork, h])
      · exact Or.inl (by simp [gateCallsNetwork, h])
      · exact Or.inr h
    rcases hgate with hg | hg
    · simp [inquiryHandler5, hfields, hemail, hveh, hg, inquirySuccess]
    · subst hg
      cases hgc : gateCallsNetwork env req <;>
        simp [inquiryHandler5, hfields, hemail, hveh, hgc, inquirySuccess]
  · intro env req net sendOk hmsg
    unfold inquiryHandler5 at hmsg
    split at hmsg
    · simp at hmsg
    · split at hmsg
      · simp at hmsg
      · split at hmsg
        · simp at hmsg
        · split at hmsg
          · split at hmsg
            · exact ⟨by assumption, rfl⟩
            all_goals simp [inquirySuccess] at hmsg
          · simp [inquirySuccess] at hmsg

/-- Witness for C9: no captcha token supplied, production mode, secret set —
the request still succeeds and reaches the email step. -/
theorem inquiry_gate_fail_open_witness :
    truthy reqInquiryOk.captchaToken = false ∧
    ((inquiryHandler5 ⟨"production", true, true⟩ reqInquiryOk NetResult.err false).status = 200 ∧
     (inquiryHandler5 ⟨"production", true, true⟩ reqInquiryOk NetResult.err false).success = true ∧
     (inquiryHandler5 ⟨"production", true, true⟩ reqInquiryOk NetResult.err false).emailAttempted =
       (⟨"production", true, true⟩ : Env5).transporter) :=
  ⟨by decide,
   inquiry_gate_fail_open.1 ⟨"production", true, true⟩ reqInquiryOk
     NetResult.err false vehicle1 (by decide) (by decide) (by decide)
     (Or.inl (by decide))⟩

/-- C8: with a frozen clock, two `generateEmailTemplate` calls with the same
input produce byte-identical HTML, the second call taking the
cached-template code path; both equal the substitution chain applied to the
template literal, and the cache is the only state the call touches.  (The
hypothesis restricts the cache to its reachable states: empty as at module
load, or holding the one template literal the function ever stores.) -/
theorem email_template_idempotent (cache : TemplateCache) (now year : Nat)
    (d : EmailData)
    (hreach : cache.html = none ∨ cache.html = some htmlTemplate) :
    (generateEmailTemplate cache now year d).html =
      (generateEmailTemplate (generateEmailTemplate cache now year d).cache
        now year d).html ∧
    (generateEmailTemplate (generateEmailTemplate cache now year d).cache
      now year d).usedCache = true ∧
    (generateEmailTemplate cache now year d).html =
      fillTemplate htmlTemplate d year := by
  obtain ⟨html, lastUpdated⟩ := cache
  have h0 : 0 < TEMPLATE_CACHE_TTL := by decide
  rcases hreach with h | h <;> simp only at h <;> subst h
  · simp [generateEmailTemplate, Nat.sub_self, h0]
  · by_cases hfresh : now - lastUpdated < TEMPLATE_CACHE_TTL <;>
      simp [generateEmailTemplate, hfresh, Nat.sub_self, h0]

/-- Witness for C8: starting from the module-load cache state. -/
theorem email_template_idempotent_witness :
    ((⟨none, 0⟩ : TemplateCache).html = none ∨
      (⟨none, 0⟩ : TemplateCache).html = some htmlTemplate) ∧
    ((generateEmailTemplate ⟨none, 0⟩ 0 2025
        ⟨"Rolls-Royce Phantom", "Wedding", "2025-12-31", "a@b.co", ""⟩).html =
      (generateEmailTemplate
        (generateEmailTemplate ⟨none, 0⟩ 0 2025
          ⟨"Rolls-Royce Phantom", "Wedding", "2025-12-31", "a@b.co", ""⟩).cache
        0 2025 ⟨"Rolls-Royce Phantom", "Wedding", "2025-12-31", "a@b.co", ""⟩).html ∧
     (generateEmailTemplate
        (generateEmailTemplate ⟨none, 0⟩ 0 2025
          ⟨"Rolls-Royce Phantom", "Wedding", "2025-12-31", "a@b.co", ""⟩).cache
        0 2025 ⟨"Rolls-Royce Phantom", "Wedding", "2025-12-31", "a@b.co", ""⟩).usedCache = true ∧
     (generateEmailTemplate ⟨none, 0⟩ 0 2025
        ⟨"Rolls-Royce Phantom", "Wedding", "2025-12-31", "a@b.co", ""⟩).html =
      fillTemplate htmlTemplate
        ⟨"Rolls-Royce Phantom", "Wedding", "2025-12-31", "a@b.co", ""⟩ 2025) :=
  ⟨Or.inl rfl,
   email_template_idempotent ⟨none, 0⟩ 0 2025
     ⟨"Rolls-Royce Phantom", "Wedding", "2025-12-31", "a@b.co", ""⟩
     (Or.inl rfl)⟩
